import Mathlib

/-!
Verification development for the debt-manager fiscal-year obligation and
penalty engine (streamlit_app.py). The calendar dates, the fiscal-year
labelling function, the per-fiscal-year payment bucketing, the penalty
rule and the aggregate totals are embedded as executable Lean functions,
translated directly from the source; theorems below settle the frozen
claims about them.
-/

namespace DebtManager

/-- A calendar date (year, month, day), compared lexicographically as the
Python datetime.date objects in the source are. Fields are integers so
that arithmetic reasoning is uniform. -/
structure CalDate where
  year : Int
  month : Int
  day : Int
deriving DecidableEq, Repr

/-- Strict lexicographic order on dates, as Python compares date objects. -/
def dateLT (a b : CalDate) : Bool :=
  decide (a.year < b.year ∨ (a.year = b.year ∧
    (a.month < b.month ∨ (a.month = b.month ∧ a.day < b.day))))

/-- Non-strict lexicographic order on dates. -/
def dateLE (a b : CalDate) : Bool :=
  decide (a.year < b.year ∨ (a.year = b.year ∧
    (a.month < b.month ∨ (a.month = b.month ∧ a.day ≤ b.day))))

/-- Whether a year is a leap year in the Gregorian calendar. -/
def isLeapYear (y : Int) : Bool :=
  (y % 4 == 0 && y % 100 != 0) || y % 400 == 0

/-- Number of days of a month in a given year. -/
def daysInMonth (y : Int) (m : Int) : Int :=
  if m = 2 then (if isLeapYear y then 29 else 28)
  else if m = 4 ∨ m = 6 ∨ m = 9 ∨ m = 11 then 30
  else 31

/-- A valid calendar date: month in range and day within the month. -/
def CalDate.valid (d : CalDate) : Bool :=
  decide (1 ≤ d.month ∧ d.month ≤ 12 ∧ 1 ≤ d.day ∧ d.day ≤ daysInMonth d.year d.month)

/-- The starting calendar year of the fiscal year a date belongs to,
following get_fiscal_year_string in the source: dates before April 5
belong to the fiscal year starting the previous calendar year. -/
def getFiscalYearStart (d : CalDate) : Int :=
  if d.month < 4 ∨ (d.month = 4 ∧ d.day < 5) then d.year - 1 else d.year

/-- The fiscal-year label string for a starting year, of the form
start-hyphen-end as built at the end of get_fiscal_year_string and in the
summary loop of display_customer_summary. -/
def mkFiscalLabel (y : Int) : String :=
  toString y ++ "-" ++ toString (y + 1)

/-- Embedding of get_fiscal_year_string from the source. -/
def get_fiscal_year_string (d : CalDate) : String :=
  mkFiscalLabel (getFiscalYearStart d)

/-- A payment record: customer name, optional parsed date (none models a
missing or unparseable date, the NaT case in the source) and amount. -/
structure Payment where
  customer : String
  date : Option CalDate
  amount : ℚ
deriving DecidableEq, Repr

/-- First day of fiscal period y: April 5 of year y (start_date_fiscal). -/
def period_start (y : Int) : CalDate := ⟨y, 4, 5⟩

/-- Last day of fiscal period y: March 5 of year y + 1 (end_date_fiscal). -/
def period_end (y : Int) : CalDate := ⟨y + 1, 3, 5⟩

/-- Penalty cutoff of fiscal period y: March 3 of year y + 1
(penalty_check_date in the source). -/
def penalty_check_date (y : Int) : CalDate := ⟨y + 1, 3, 3⟩

/-- Whether an optional payment date falls inside fiscal period y, as the
summary loop filters: the date is present, at least the period start and
at most the period end, both bounds inclusive. -/
def inFiscalPeriodD (y : Int) (d : Option CalDate) : Bool :=
  match d with
  | none => false
  | some d => dateLE (period_start y) d && dateLE d (period_end y)

/-- Lifetime paid total of a customer: sum of the amounts of all payment
rows whose customer name matches, regardless of the date field. -/
def total_paid_all_time (n : String) (ps : List Payment) : ℚ :=
  ((ps.filter (fun p => p.customer == n)).map Payment.amount).sum

/-- Amount a customer paid inside fiscal period y: sum of amounts of the
rows whose name matches and whose date lies inside the period. -/
def paid_in_fiscal_year (n : String) (ps : List Payment) (y : Int) : ℚ :=
  ((ps.filter (fun p => p.customer == n && inFiscalPeriodD y p.date)).map Payment.amount).sum

/-- Yearly required amount: a quarter of the total debt when the total
debt is positive, otherwise zero. -/
def required_yearly (total_due : ℚ) : ℚ :=
  if total_due > 0 then total_due / 4 else 0

/-- Lifetime remaining debt: total debt minus lifetime paid, not clamped. -/
def total_remaining (total_due : ℚ) (n : String) (ps : List Payment) : ℚ :=
  total_due - total_paid_all_time n ps

/-- Penalty status of a schedule row: no penalty, remaining owed but the
cutoff not yet passed, or penalty applied with its amount. -/
inductive PenaltyStatus where
  | nothing
  | pending
  | applied (amount : ℚ)
deriving DecidableEq, Repr

/-- One row of the four-row fiscal schedule built by the summary loop. -/
structure SummaryRow where
  fiscalLabel : String
  required : ℚ
  paid : ℚ
  remaining : ℚ
  penaltyStatus : PenaltyStatus
deriving DecidableEq, Repr

/-- One iteration of the summary loop of display_customer_summary for
fiscal period fy: compute paid, remaining, and the penalty status; the
penalty applies only when remaining is positive and today is strictly
after the penalty check date. -/
def summary_row (total_due : ℚ) (n : String) (ps : List Payment) (today : CalDate) (fy : Int) : SummaryRow :=
  let required := required_yearly total_due
  let paid := paid_in_fiscal_year n ps fy
  let remaining := max 0 (required - paid)
  let status :=
    if 0 < remaining then
      if dateLT (penalty_check_date fy) today then PenaltyStatus.applied (remaining * 0.15)
      else PenaltyStatus.pending
    else PenaltyStatus.nothing
  ⟨mkFiscalLabel fy, required, paid, remaining, status⟩

/-- The four-row schedule: one summary row per fiscal period, starting at
the contract start fiscal year, in chronological order. -/
def compute_schedule (startYear : Int) (total_due : ℚ) (n : String) (ps : List Payment) (today : CalDate) : List SummaryRow :=
  (List.range 4).map (fun i : Nat => summary_row total_due n ps today (startYear + (i : Int)))

/-- Whether a penalty has been applied on a row. -/
def isApplied (r : SummaryRow) : Bool :=
  match r.penaltyStatus with
  | PenaltyStatus.applied _ => true
  | _ => false

/-- The rows on which a penalty was incurred, as collected into
penalties_incurred_display by the summary loop. -/
def penalties_incurred (rows : List SummaryRow) : List SummaryRow :=
  rows.filter isApplied

/-- Total debt of a customer per the registry, defaulting to zero when
the customer is absent, as customer_amounts.get(name, 0) does. -/
def amount_of (customer_amounts : List (String × ℚ)) (n : String) : ℚ :=
  ((customer_amounts.find? (fun kv => kv.1 == n)).map Prod.snd).getD 0

/-- Embedding of the schedule computation of display_customer_summary:
the contract start fiscal year is hard-coded to 2025 in the source, and
the total debt is looked up in the registry with default zero. -/
def display_customer_summary (n : String) (customer_amounts : List (String × ℚ)) (ps : List Payment) (today : CalDate) : List SummaryRow :=
  compute_schedule 2025 (amount_of customer_amounts n) n ps today

/-- Receipt lookup from generate_pdf_receipt: scan the schedule rows for
the first whose fiscal label equals the label computed from the payment
date; none models the no-matching-period message. -/
def receipt_lookup (rows : List SummaryRow) (payment_date : CalDate) : Option SummaryRow :=
  rows.find? (fun r => r.fiscalLabel == get_fiscal_year_string payment_date)

/-- Serialized form of a penalty status: a tag and an amount. -/
def encodeStatus : PenaltyStatus → Nat × ℚ
  | PenaltyStatus.nothing => (0, 0)
  | PenaltyStatus.pending => (1, 0)
  | PenaltyStatus.applied a => (2, a)

/-- Decode a serialized penalty status. -/
def decodeStatus : Nat × ℚ → Option PenaltyStatus
  | (0, _) => some PenaltyStatus.nothing
  | (1, _) => some PenaltyStatus.pending
  | (2, a) => some (PenaltyStatus.applied a)
  | _ => none

/-- Serialized form of a schedule row: a flat tuple of its fields. -/
def encodeRow (r : SummaryRow) : String × ℚ × ℚ × ℚ × (Nat × ℚ) :=
  (r.fiscalLabel, r.required, r.paid, r.remaining, encodeStatus r.penaltyStatus)

/-- Decode a serialized schedule row. -/
def decodeRow (x : String × ℚ × ℚ × ℚ × (Nat × ℚ)) : Option SummaryRow :=
  (decodeStatus x.2.2.2.2).map (fun st => ⟨x.1, x.2.1, x.2.2.1, x.2.2.2.1, st⟩)

/-- Serialize a schedule. -/
def encodeRows (rows : List SummaryRow) : List (String × ℚ × ℚ × ℚ × (Nat × ℚ)) :=
  rows.map encodeRow

/-- Deserialize a schedule; fails when any row fails to decode. -/
def decodeRows : List (String × ℚ × ℚ × ℚ × (Nat × ℚ)) → Option (List SummaryRow)
  | [] => some []
  | x :: xs =>
    match decodeRow x, decodeRows xs with
    | some r, some rs => some (r :: rs)
    | _, _ => none

/-! Helper lemmas about dates and bucketing. -/

theorem dateLE_iff (a b : CalDate) :
    dateLE a b = true ↔ (a.year < b.year ∨ (a.year = b.year ∧
      (a.month < b.month ∨ (a.month = b.month ∧ a.day ≤ b.day)))) := by
  simp [dateLE]

theorem dateLT_iff (a b : CalDate) :
    dateLT a b = true ↔ (a.year < b.year ∨ (a.year = b.year ∧
      (a.month < b.month ∨ (a.month = b.month ∧ a.day < b.day)))) := by
  simp [dateLT]

theorem dateLT_eq_false_iff (a b : CalDate) :
    dateLT a b = false ↔ dateLE b a = true := by
  simp only [dateLT, dateLE, decide_eq_false_iff_not, decide_eq_true_eq]
  constructor <;> intro h <;> omega

theorem inFiscalPeriodD_some_iff (y : Int) (d : CalDate) :
    inFiscalPeriodD y (some d) = true ↔
      ((y < d.year ∨ (y = d.year ∧ (4 < d.month ∨ (4 = d.month ∧ 5 ≤ d.day)))) ∧
       (d.year < y + 1 ∨ (d.year = y + 1 ∧ (d.month < 3 ∨ (d.month = 3 ∧ d.day ≤ 5))))) := by
  simp [inFiscalPeriodD, dateLE, period_start, period_end]

/-- A date lies in at most one fiscal period. -/
theorem inFiscalPeriodD_unique (y z : Int) (od : Option CalDate)
    (hy : inFiscalPeriodD y od = true) (hz : inFiscalPeriodD z od = true) : y = z := by
  cases od with
  | none => simp [inFiscalPeriodD] at hy
  | some d =>
    rw [inFiscalPeriodD_some_iff] at hy hz
    omega

/-- A date inside a fiscal period has that period as its fiscal-year start. -/
theorem inFiscalPeriodD_fiscalYearStart (y : Int) (d : CalDate)
    (h : inFiscalPeriodD y (some d) = true) : getFiscalYearStart d = y := by
  rw [inFiscalPeriodD_some_iff] at h
  unfold getFiscalYearStart
  split <;> omega

theorem paid_cons (n : String) (p : Payment) (ps : List Payment) (y : Int) :
    paid_in_fiscal_year n (p :: ps) y =
      (if p.customer == n && inFiscalPeriodD y p.date then p.amount else 0) +
        paid_in_fiscal_year n ps y := by
  unfold paid_in_fiscal_year
  rw [List.filter_cons]
  split <;> simp_all

theorem paid_append (n : String) (l1 l2 : List Payment) (y : Int) :
    paid_in_fiscal_year n (l1 ++ l2) y =
      paid_in_fiscal_year n l1 y + paid_in_fiscal_year n l2 y := by
  unfold paid_in_fiscal_year
  rw [List.filter_append, List.map_append, List.sum_append]

theorem total_paid_cons (n : String) (p : Payment) (ps : List Payment) :
    total_paid_all_time n (p :: ps) =
      (if p.customer == n then p.amount else 0) + total_paid_all_time n ps := by
  unfold total_paid_all_time
  rw [List.filter_cons]
  split <;> simp_all

theorem total_paid_append (n : String) (l1 l2 : List Payment) :
    total_paid_all_time n (l1 ++ l2) =
      total_paid_all_time n l1 + total_paid_all_time n l2 := by
  unfold total_paid_all_time
  rw [List.filter_append, List.map_append, List.sum_append]

theorem compute_schedule_length (s : Int) (td : ℚ) (n : String) (ps : List Payment) (t : CalDate) :
    (compute_schedule s td n ps t).length = 4 := by
  simp [compute_schedule]

theorem compute_schedule_getElem (s : Int) (td : ℚ) (n : String) (ps : List Payment)
    (t : CalDate) (i : Nat) (hi : i < 4) :
    (compute_schedule s td n ps t)[i]? = some (summary_row td n ps t (s + i)) := by
  unfold compute_schedule
  rw [List.getElem?_map, List.getElem?_range hi]
  rfl

theorem summary_row_fields (td : ℚ) (n : String) (ps : List Payment) (t : CalDate) (fy : Int) :
    summary_row td n ps t fy =
      { fiscalLabel := mkFiscalLabel fy
        required := required_yearly td
        paid := paid_in_fiscal_year n ps fy
        remaining := max 0 (required_yearly td - paid_in_fiscal_year n ps fy)
        penaltyStatus :=
          if 0 < max 0 (required_yearly td - paid_in_fiscal_year n ps fy) then
            if dateLT (penalty_check_date fy) t then
              PenaltyStatus.applied (max 0 (required_yearly td - paid_in_fiscal_year n ps fy) * 0.15)
            else PenaltyStatus.pending
          else PenaltyStatus.nothing } := rfl

theorem summary_row_remaining (td : ℚ) (n : String) (ps : List Payment) (t : CalDate) (fy : Int) :
    (summary_row td n ps t fy).remaining =
      max 0 (required_yearly td - paid_in_fiscal_year n ps fy) := rfl

theorem summary_row_status (td : ℚ) (n : String) (ps : List Payment) (t : CalDate) (fy : Int) :
    (summary_row td n ps t fy).penaltyStatus =
      if 0 < max 0 (required_yearly td - paid_in_fiscal_year n ps fy) then
        if dateLT (penalty_check_date fy) t then
          PenaltyStatus.applied
            (max 0 (required_yearly td - paid_in_fiscal_year n ps fy) * 0.15)
        else PenaltyStatus.pending
      else PenaltyStatus.nothing := rfl

/-- C1: for each row i of the 4-row schedule, with cutoff March 3 of
startYear + i + 1: zero remaining gives status nothing; positive
remaining with today on or before the cutoff gives status pending;
positive remaining with today strictly after the cutoff gives the
penalty applied with amount remaining times 0.15; and on the cutoff day
itself the row is still pending. -/
theorem C1_penalty_rule (s : Int) (td : ℚ) (n : String) (ps : List Payment)
    (today : CalDate) (i : Nat) (hi : i < 4) :
    (compute_schedule s td n ps today)[i]? = some (summary_row td n ps today (s + i)) ∧
    penalty_check_date (s + i) = ⟨s + i + 1, 3, 3⟩ ∧
    ((summary_row td n ps today (s + i)).remaining = 0 →
      (summary_row td n ps today (s + i)).penaltyStatus = PenaltyStatus.nothing) ∧
    (0 < (summary_row td n ps today (s + i)).remaining →
      dateLE today (penalty_check_date (s + i)) = true →
      (summary_row td n ps today (s + i)).penaltyStatus = PenaltyStatus.pending) ∧
    (0 < (summary_row td n ps today (s + i)).remaining →
      dateLE today (penalty_check_date (s + i)) = false →
      (summary_row td n ps today (s + i)).penaltyStatus =
        PenaltyStatus.applied ((summary_row td n ps today (s + i)).remaining * 0.15)) ∧
    (today = penalty_check_date (s + i) →
      0 < (summary_row td n ps today (s + i)).remaining →
      (summary_row td n ps today (s + i)).penaltyStatus = PenaltyStatus.pending) := by
  have hpend : 0 < (summary_row td n ps today (s + i)).remaining →
      dateLE today (penalty_check_date (s + i)) = true →
      (summary_row td n ps today (s + i)).penaltyStatus = PenaltyStatus.pending := by
    intro h0 hle
    have hlt : dateLT (penalty_check_date (s + i)) today = false :=
      (dateLT_eq_false_iff _ _).mpr hle
    rw [summary_row_remaining] at h0
    rw [summary_row_status, if_pos h0, hlt]
    simp
  refine ⟨compute_schedule_getElem s td n ps today i hi, rfl, ?_, hpend, ?_, ?_⟩
  · intro h
    rw [summary_row_remaining] at h
    rw [summary_row_status, h]
    simp
  · intro h0 hle
    have hlt : dateLT (penalty_check_date (s + i)) today = true := by
      cases h2 : dateLT (penalty_check_date (s + i)) today with
      | false =>
        rw [dateLT_eq_false_iff] at h2
        rw [h2] at hle
        cases hle
      | true => rfl
    rw [summary_row_remaining] at h0 ⊢
    rw [summary_row_status, if_pos h0, hlt]
    simp
  · intro he h0
    refine hpend h0 ?_
    rw [he]
    simp [dateLE]

/-- Witness for C1 at a concrete input: contract start 2025, debt
400000, no payments, today March 4 of 2026, row 0. -/
theorem C1_penalty_rule_witness :
    (0 : Nat) < 4 ∧
    ((compute_schedule 2025 400000 "A" [] ⟨2026, 3, 4⟩)[(0 : Nat)]? =
        some (summary_row 400000 "A" [] ⟨2026, 3, 4⟩ 2025) ∧
      penalty_check_date 2025 = ⟨2026, 3, 3⟩ ∧
      ((summary_row 400000 "A" [] ⟨2026, 3, 4⟩ 2025).remaining = 0 →
        (summary_row 400000 "A" [] ⟨2026, 3, 4⟩ 2025).penaltyStatus = PenaltyStatus.nothing) ∧
      (0 < (summary_row 400000 "A" [] ⟨2026, 3, 4⟩ 2025).remaining →
        dateLE ⟨2026, 3, 4⟩ (penalty_check_date 2025) = true →
        (summary_row 400000 "A" [] ⟨2026, 3, 4⟩ 2025).penaltyStatus = PenaltyStatus.pending) ∧
      (0 < (summary_row 400000 "A" [] ⟨2026, 3, 4⟩ 2025).remaining →
        dateLE ⟨2026, 3, 4⟩ (penalty_check_date 2025) = false →
        (summary_row 400000 "A" [] ⟨2026, 3, 4⟩ 2025).penaltyStatus =
          PenaltyStatus.applied ((summary_row 400000 "A" [] ⟨2026, 3, 4⟩ 2025).remaining * 0.15)) ∧
      (⟨2026, 3, 4⟩ = penalty_check_date 2025 →
        0 < (summary_row 400000 "A" [] ⟨2026, 3, 4⟩ 2025).remaining →
        (summary_row 400000 "A" [] ⟨2026, 3, 4⟩ 2025).penaltyStatus = PenaltyStatus.pending)) :=
  ⟨by decide, C1_penalty_rule 2025 400000 "A" [] ⟨2026, 3, 4⟩ 0 (by decide)⟩

/-- C4: every schedule row has required equal to a quarter of the total
debt when positive and zero otherwise, and for non-negative total debt
the four required amounts sum to the total debt within one billionth. -/
theorem C4_required_sum (s : Int) (td : ℚ) (n : String) (ps : List Payment)
    (t : CalDate) (h : 0 ≤ td) :
    ((compute_schedule s td n ps t).map SummaryRow.required) =
      [required_yearly td, required_yearly td, required_yearly td, required_yearly td] ∧
    required_yearly td = (if 0 < td then td / 4 else 0) ∧
    |((compute_schedule s td n ps t).map SummaryRow.required).sum - td| ≤ 1 / 1000000000 := by
  refine ⟨rfl, rfl, ?_⟩
  have h4 : ((compute_schedule s td n ps t).map SummaryRow.required).sum =
      required_yearly td * 4 := by
    show required_yearly td + (required_yearly td + (required_yearly td +
      (required_yearly td + 0))) = required_yearly td * 4
    ring
  rw [h4]
  by_cases hp : 0 < td
  · rw [required_yearly, if_pos hp, div_mul_cancel₀]
    · simp
    · norm_num
  · have h0 : td = 0 := le_antisymm (not_lt.mp hp) h
    rw [required_yearly, if_neg hp, h0]
    norm_num

/-- Witness for C4 at total debt 400000. -/
theorem C4_required_sum_witness :
    (0 : ℚ) ≤ 400000 ∧
    (((compute_schedule 2025 400000 "A" [] ⟨2025, 7, 1⟩).map SummaryRow.required) =
        [required_yearly 400000, required_yearly 400000, required_yearly 400000,
          required_yearly 400000] ∧
      required_yearly 400000 = (if (0 : ℚ) < 400000 then 400000 / 4 else 0) ∧
      |((compute_schedule 2025 400000 "A" [] ⟨2025, 7, 1⟩).map SummaryRow.required).sum -
          400000| ≤ 1 / 1000000000) :=
  ⟨by norm_num, C4_required_sum 2025 400000 "A" [] ⟨2025, 7, 1⟩ (by norm_num)⟩

/-- C5: a payment with a missing or unparseable date is excluded from
every fiscal bucket, still counts toward the lifetime paid total, and
the schedule still has its four rows. -/
theorem C5_invalid_date (n : String) (p : Payment) (ps : List Payment)
    (s : Int) (td : ℚ) (t : CalDate) (y : Int)
    (hd : p.date = none) (hc : p.customer = n) :
    paid_in_fiscal_year n (p :: ps) y = paid_in_fiscal_year n ps y ∧
    total_paid_all_time n (p :: ps) = p.amount + total_paid_all_time n ps ∧
    (compute_schedule s td n (p :: ps) t).length = 4 := by
  refine ⟨?_, ?_, compute_schedule_length s td n (p :: ps) t⟩
  · rw [paid_cons, hd]
    simp [inFiscalPeriodD]
  · rw [total_paid_cons, hc]
    simp

/-- Witness for C5: a dateless payment of 50 for customer A. -/
theorem C5_invalid_date_witness :
    (Payment.mk "A" none 50).date = none ∧ (Payment.mk "A" none 50).customer = "A" ∧
    (paid_in_fiscal_year "A" [Payment.mk "A" none 50] 2025 = paid_in_fiscal_year "A" [] 2025 ∧
      total_paid_all_time "A" [Payment.mk "A" none 50] =
        (Payment.mk "A" none 50).amount + total_paid_all_time "A" [] ∧
      (compute_schedule 2025 400000 "A" [Payment.mk "A" none 50] ⟨2025, 7, 1⟩).length = 4) :=
  ⟨rfl, rfl, C5_invalid_date "A" (Payment.mk "A" none 50) [] 2025 400000 ⟨2025, 7, 1⟩ 2025 rfl rfl⟩

/-- C6: the lifetime paid total is the sum of the amounts of all of the
customer payments regardless of date validity, and the lifetime
remaining is the debt minus that total, unclamped, hence negative
exactly when payments exceed the debt. -/
theorem C6_lifetime_totals (td : ℚ) (n : String) (ps : List Payment) (a : ℚ) (d : CalDate) :
    total_paid_all_time n ps =
      ((ps.filter (fun p => p.customer == n)).map Payment.amount).sum ∧
    total_paid_all_time n (Payment.mk n none a :: ps) = a + total_paid_all_time n ps ∧
    total_paid_all_time n (Payment.mk n (some d) a :: ps) = a + total_paid_all_time n ps ∧
    total_remaining td n ps = td - total_paid_all_time n ps ∧
    (total_remaining td n ps < 0 ↔ td < total_paid_all_time n ps) := by
  refine ⟨rfl, ?_, ?_, rfl, ?_⟩
  · rw [total_paid_cons]
    simp
  · rw [total_paid_cons]
    simp
  · rw [total_remaining]
    constructor <;> intro h <;> linarith

theorem inFiscalPeriodD_mk_iff (y Y M D : Int) :
    inFiscalPeriodD y (some ⟨Y, M, D⟩) = true ↔
      ((y < Y ∨ (y = Y ∧ (4 < M ∨ (4 = M ∧ 5 ≤ D)))) ∧
       (Y < y + 1 ∨ (Y = y + 1 ∧ (M < 3 ∨ (M = 3 ∧ D ≤ 5))))) :=
  inFiscalPeriodD_some_iff y ⟨Y, M, D⟩

/-- C2 counterexample: a payment dated April 4 of 2026 is not counted in
fiscal year 2025 (it lies in no bucket), and March 6 of 2026 does not
lie in the following period 2026 either, contrary to the claim. -/
theorem C2_counterexample :
    paid_in_fiscal_year "A" [Payment.mk "A" (some ⟨2026, 4, 4⟩) 100] 2025 = 0 ∧
    inFiscalPeriodD 2025 (some ⟨2026, 4, 4⟩) = false ∧
    inFiscalPeriodD 2026 (some ⟨2026, 3, 6⟩) = false := by
  decide

/-- C2 amended: payments dated exactly April 5 of year Y or March 5 of
year Y + 1 are counted inside fiscal year Y (boundaries inclusive), but
a payment dated April 4 of year Y, or March 6 of year Y + 1, lies in no
fiscal bucket at all. -/
theorem C2_boundaries (Y y : Int) (a : ℚ) :
    paid_in_fiscal_year "A" [Payment.mk "A" (some ⟨Y, 4, 5⟩) a] Y = a ∧
    paid_in_fiscal_year "A" [Payment.mk "A" (some ⟨Y + 1, 3, 5⟩) a] Y = a ∧
    inFiscalPeriodD y (some ⟨Y, 4, 4⟩) = false ∧
    inFiscalPeriodD y (some ⟨Y + 1, 3, 6⟩) = false := by
  have h1 : inFiscalPeriodD Y (some (⟨Y, 4, 5⟩ : CalDate)) = true := by
    rw [inFiscalPeriodD_mk_iff]
    omega
  have h2 : inFiscalPeriodD Y (some (⟨Y + 1, 3, 5⟩ : CalDate)) = true := by
    rw [inFiscalPeriodD_mk_iff]
    omega
  refine ⟨?_, ?_, ?_, ?_⟩
  · simp [paid_cons, paid_in_fiscal_year, h1]
  · simp [paid_cons, paid_in_fiscal_year, h2]
  · cases hb : inFiscalPeriodD y (some (⟨Y, 4, 4⟩ : CalDate)) with
    | false => rfl
    | true =>
      rw [inFiscalPeriodD_mk_iff] at hb
      omega
  · cases hb : inFiscalPeriodD y (some (⟨Y + 1, 3, 6⟩ : CalDate)) with
    | false => rfl
    | true =>
      rw [inFiscalPeriodD_mk_iff] at hb
      omega

/-- C3 counterexample: March 6 of 2026 is a valid date whose fiscal
label is 2025-2026, yet it does not lie inside the inclusive bounds of
period 2025, so the label does not agree with period containment. -/
theorem C3_counterexample :
    CalDate.valid ⟨2026, 3, 6⟩ = true ∧
    get_fiscal_year_string ⟨2026, 3, 6⟩ = "2025-2026" ∧
    inFiscalPeriodD 2025 (some ⟨2026, 3, 6⟩) = false ∧
    paid_in_fiscal_year "A" [Payment.mk "A" (some ⟨2026, 3, 6⟩) 100] 2025 = 0 := by
  refine ⟨by decide, by decide, by decide, by decide⟩

/-- C3 amended: the label formula of get_fiscal_year_string holds for
every date; any period containing a date is the one starting at the
fiscal-year start of that date; and every valid date outside the
uncovered span March 6 to April 4 does lie inside the period of its own
label, while dates in that span lie in no period. -/
theorem C3_fiscal_label (d : CalDate) (y : Int) (h : CalDate.valid d = true) :
    get_fiscal_year_string d =
      (if d.month < 4 ∨ (d.month = 4 ∧ d.day < 5) then
        toString (d.year - 1) ++ "-" ++ toString d.year
      else toString d.year ++ "-" ++ toString (d.year + 1)) ∧
    (inFiscalPeriodD y (some d) = true → y = getFiscalYearStart d) ∧
    (¬ ((d.month = 3 ∧ 6 ≤ d.day) ∨ (d.month = 4 ∧ d.day ≤ 4)) →
      inFiscalPeriodD (getFiscalYearStart d) (some d) = true) := by
  refine ⟨?_, ?_, ?_⟩
  · unfold get_fiscal_year_string mkFiscalLabel getFiscalYearStart
    split
    · have he : d.year - 1 + 1 = d.year := by omega
      rw [he]
    · rfl
  · intro hmem
    exact (inFiscalPeriodD_fiscalYearStart y d hmem).symm
  · intro hng
    rw [inFiscalPeriodD_some_iff]
    unfold getFiscalYearStart
    split <;> omega

/-- Witness for C3 amended at July 1 of 2025. -/
theorem C3_fiscal_label_witness :
    CalDate.valid ⟨2025, 7, 1⟩ = true ∧
    (get_fiscal_year_string ⟨2025, 7, 1⟩ =
        (if (7 : Int) < 4 ∨ ((7 : Int) = 4 ∧ (1 : Int) < 5) then
          toString (2025 - 1 : Int) ++ "-" ++ toString (2025 : Int)
        else toString (2025 : Int) ++ "-" ++ toString (2025 + 1 : Int)) ∧
      (inFiscalPeriodD 2025 (some ⟨2025, 7, 1⟩) = true →
        (2025 : Int) = getFiscalYearStart ⟨2025, 7, 1⟩) ∧
      (¬ (((7 : Int) = 3 ∧ (6 : Int) ≤ 1) ∨ ((7 : Int) = 4 ∧ (1 : Int) ≤ 4)) →
        inFiscalPeriodD (getFiscalYearStart ⟨2025, 7, 1⟩) (some ⟨2025, 7, 1⟩) = true)) :=
  ⟨by decide, C3_fiscal_label ⟨2025, 7, 1⟩ 2025 (by decide)⟩

/-- C10: a payment dated strictly between March 5 and April 5 of year
Y + 1 lies in no fiscal bucket at all, although its fiscal label is the
one of the just-ended period Y; it still counts toward the lifetime
paid total. -/
theorem C10_gap_dates (Y y : Int) (d : CalDate) (n : String) (ps : List Payment) (a : ℚ)
    (hY : d.year = Y + 1)
    (hgap : (d.month = 3 ∧ 6 ≤ d.day) ∨ (d.month = 4 ∧ d.day ≤ 4)) :
    inFiscalPeriodD y (some d) = false ∧
    getFiscalYearStart d = Y ∧
    get_fiscal_year_string d = mkFiscalLabel Y ∧
    total_paid_all_time n (Payment.mk n (some d) a :: ps) = a + total_paid_all_time n ps ∧
    paid_in_fiscal_year n (Payment.mk n (some d) a :: ps) y = paid_in_fiscal_year n ps y := by
  have hstart : getFiscalYearStart d = Y := by
    unfold getFiscalYearStart
    split <;> omega
  have hmem : inFiscalPeriodD y (some d) = false := by
    cases hb : inFiscalPeriodD y (some d) with
    | false => rfl
    | true =>
      rw [inFiscalPeriodD_some_iff] at hb
      omega
  refine ⟨hmem, hstart, ?_, ?_, ?_⟩
  · rw [get_fiscal_year_string, hstart]
  · rw [total_paid_cons]
    simp
  · rw [paid_cons]
    simp [hmem]

/-- Witness for C10 at March 6 of 2026 with a payment of 100. -/
theorem C10_gap_dates_witness :
    (CalDate.mk 2026 3 6).year = 2025 + 1 ∧
    (((CalDate.mk 2026 3 6).month = 3 ∧ 6 ≤ (CalDate.mk 2026 3 6).day) ∨
      ((CalDate.mk 2026 3 6).month = 4 ∧ (CalDate.mk 2026 3 6).day ≤ 4)) ∧
    (inFiscalPeriodD 2025 (some ⟨2026, 3, 6⟩) = false ∧
      getFiscalYearStart ⟨2026, 3, 6⟩ = 2025 ∧
      get_fiscal_year_string ⟨2026, 3, 6⟩ = mkFiscalLabel 2025 ∧
      total_paid_all_time "A" (Payment.mk "A" (some ⟨2026, 3, 6⟩) 100 :: []) =
        100 + total_paid_all_time "A" [] ∧
      paid_in_fiscal_year "A" (Payment.mk "A" (some ⟨2026, 3, 6⟩) 100 :: []) 2025 =
        paid_in_fiscal_year "A" [] 2025) :=
  ⟨by decide, by decide,
    C10_gap_dates 2025 2025 ⟨2026, 3, 6⟩ "A" [] 100 (by decide) (by decide)⟩

theorem summary_row_label (td : ℚ) (n : String) (ps : List Payment) (t : CalDate) (fy : Int) :
    (summary_row td n ps t fy).fiscalLabel = mkFiscalLabel fy := rfl

theorem compute_schedule_eq (s : Int) (td : ℚ) (n : String) (ps : List Payment) (t : CalDate) :
    compute_schedule s td n ps t =
      [summary_row td n ps t s, summary_row td n ps t (s + 1),
        summary_row td n ps t (s + 2), summary_row td n ps t (s + 3)] := by
  unfold compute_schedule
  norm_num [List.range_succ]

/-- C7: the receipt features the first schedule row whose fiscal label
equals the label computed from the payment date; the lookup yields none
exactly when no row carries that label; and on the schedule with the
hard-coded contract start 2025, a payment date whose fiscal-year start
is 2025 + i for i below 4 resolves to row i. -/
theorem C7_receipt_lookup (rows : List SummaryRow) (d : CalDate) (r : SummaryRow)
    (td : ℚ) (n : String) (ps : List Payment) (t : CalDate) (i : Nat) :
    (receipt_lookup rows d = some r →
      r ∈ rows ∧ r.fiscalLabel = get_fiscal_year_string d) ∧
    (receipt_lookup rows d = none ↔
      rows.all (fun q => q.fiscalLabel != get_fiscal_year_string d) = true) ∧
    (i < 4 → getFiscalYearStart d = 2025 + i →
      receipt_lookup (compute_schedule 2025 td n ps t) d =
        some (summary_row td n ps t (2025 + i))) := by
  refine ⟨?_, ?_, ?_⟩
  · intro h
    refine ⟨List.mem_of_find?_eq_some h, ?_⟩
    have hp := List.find?_some h
    simpa using hp
  · unfold receipt_lookup
    rw [List.find?_eq_none, List.all_eq_true]
    constructor <;> intro hall q hq <;> have := hall q hq <;> simpa using this
  · intro hi hstart
    have hkey : get_fiscal_year_string d = mkFiscalLabel (2025 + (i : Int)) := by
      rw [get_fiscal_year_string, hstart]
    rw [compute_schedule_eq]
    unfold receipt_lookup
    interval_cases i
    · rw [List.find?_cons_of_pos]
      · norm_num
      · rw [summary_row_label, hkey]
        norm_num
    · rw [List.find?_cons_of_neg, List.find?_cons_of_pos]
      · norm_num
      · rw [summary_row_label, hkey]
        norm_num
      · rw [summary_row_label, hkey]
        norm_num
        decide
    · rw [List.find?_cons_of_neg, List.find?_cons_of_neg, List.find?_cons_of_pos]
      · norm_num
      · rw [summary_row_label, hkey]
        norm_num
      · rw [summary_row_label, hkey]
        norm_num
        decide
      · rw [summary_row_label, hkey]
        norm_num
        decide
    · rw [List.find?_cons_of_neg, List.find?_cons_of_neg, List.find?_cons_of_neg,
        List.find?_cons_of_pos]
      · norm_num
      · rw [summary_row_label, hkey]
        norm_num
      · rw [summary_row_label, hkey]
        norm_num
        decide
      · rw [summary_row_label, hkey]
        norm_num
        decide
      · rw [summary_row_label, hkey]
        norm_num
        decide

/-- Witness for C7: on the empty payment history with debt 400000, a
payment dated July 1 of 2025 resolves to the first schedule row. -/
theorem C7_receipt_lookup_witness :
    receipt_lookup (compute_schedule 2025 400000 "A" [] ⟨2025, 7, 1⟩) ⟨2025, 7, 1⟩ =
      some (summary_row 400000 "A" [] ⟨2025, 7, 1⟩ 2025) :=
  (C7_receipt_lookup [] ⟨2025, 7, 1⟩ (summary_row 400000 "A" [] ⟨2025, 7, 1⟩ 2025)
      400000 "A" [] ⟨2025, 7, 1⟩ 0).2.2 (by decide) (by decide)

/-- C8: replacing one payment of a customer by one of equal amount whose
date lies in a different fiscal period moves the amount from the old
period bucket to the new one, leaves all other buckets untouched, and
leaves the lifetime totals unchanged. -/
theorem C8_move_payment (n : String) (pre post : List Payment) (p q : Payment)
    (y1 y2 y : Int) (td : ℚ)
    (hpc : p.customer = n) (hqc : q.customer = n) (ha : q.amount = p.amount)
    (h1 : inFiscalPeriodD y1 p.date = true) (h2 : inFiscalPeriodD y2 q.date = true)
    (hne : y1 ≠ y2) :
    paid_in_fiscal_year n (pre ++ q :: post) y1 =
      paid_in_fiscal_year n (pre ++ p :: post) y1 - p.amount ∧
    paid_in_fiscal_year n (pre ++ q :: post) y2 =
      paid_in_fiscal_year n (pre ++ p :: post) y2 + p.amount ∧
    (y ≠ y1 → y ≠ y2 →
      paid_in_fiscal_year n (pre ++ q :: post) y =
        paid_in_fiscal_year n (pre ++ p :: post) y) ∧
    total_paid_all_time n (pre ++ q :: post) = total_paid_all_time n (pre ++ p :: post) ∧
    total_remaining td n (pre ++ q :: post) = total_remaining td n (pre ++ p :: post) := by
  have hq1 : inFiscalPeriodD y1 q.date = false := by
    cases hb : inFiscalPeriodD y1 q.date with
    | false => rfl
    | true => exact absurd (inFiscalPeriodD_unique y1 y2 q.date hb h2) hne
  have hp2 : inFiscalPeriodD y2 p.date = false := by
    cases hb : inFiscalPeriodD y2 p.date with
    | false => rfl
    | true => exact absurd (inFiscalPeriodD_unique y2 y1 p.date hb h1) (Ne.symm hne)
  have htp : total_paid_all_time n (pre ++ q :: post) =
      total_paid_all_time n (pre ++ p :: post) := by
    rw [total_paid_append, total_paid_append, total_paid_cons, total_paid_cons]
    simp [hpc, hqc, ha]
  refine ⟨?_, ?_, ?_, htp, ?_⟩
  · rw [paid_append, paid_append, paid_cons, paid_cons]
    simp [hpc, hqc, h1, hq1]
    ring
  · rw [paid_append, paid_append, paid_cons, paid_cons]
    simp [hpc, hqc, ha, h2, hp2]
    ring
  · intro hy1 hy2
    have hpy : inFiscalPeriodD y p.date = false := by
      cases hb : inFiscalPeriodD y p.date with
      | false => rfl
      | true => exact absurd (inFiscalPeriodD_unique y y1 p.date hb h1) hy1
    have hqy : inFiscalPeriodD y q.date = false := by
      cases hb : inFiscalPeriodD y q.date with
      | false => rfl
      | true => exact absurd (inFiscalPeriodD_unique y y2 q.date hb h2) hy2
    rw [paid_append, paid_append, paid_cons, paid_cons]
    simp [hpy, hqy]
  · rw [total_remaining, total_remaining, htp]

/-- Witness for C8: a payment of 100 moved from June 1 of 2025 to
June 1 of 2026. -/
theorem C8_move_payment_witness :
    (Payment.mk "A" (some ⟨2025, 6, 1⟩) 100).customer = "A" ∧
    (Payment.mk "A" (some ⟨2026, 6, 1⟩) 100).customer = "A" ∧
    (Payment.mk "A" (some ⟨2026, 6, 1⟩) 100).amount =
      (Payment.mk "A" (some ⟨2025, 6, 1⟩) 100).amount ∧
    (paid_in_fiscal_year "A" ([] ++ Payment.mk "A" (some ⟨2026, 6, 1⟩) 100 :: []) 2025 =
      paid_in_fiscal_year "A" ([] ++ Payment.mk "A" (some ⟨2025, 6, 1⟩) 100 :: []) 2025 - 100 ∧
    paid_in_fiscal_year "A" ([] ++ Payment.mk "A" (some ⟨2026, 6, 1⟩) 100 :: []) 2026 =
      paid_in_fiscal_year "A" ([] ++ Payment.mk "A" (some ⟨2025, 6, 1⟩) 100 :: []) 2026 + 100 ∧
    ((2027 : Int) ≠ 2025 → (2027 : Int) ≠ 2026 →
      paid_in_fiscal_year "A" ([] ++ Payment.mk "A" (some ⟨2026, 6, 1⟩) 100 :: []) 2027 =
        paid_in_fiscal_year "A" ([] ++ Payment.mk "A" (some ⟨2025, 6, 1⟩) 100 :: []) 2027) ∧
    total_paid_all_time "A" ([] ++ Payment.mk "A" (some ⟨2026, 6, 1⟩) 100 :: []) =
      total_paid_all_time "A" ([] ++ Payment.mk "A" (some ⟨2025, 6, 1⟩) 100 :: []) ∧
    total_remaining 400000 "A" ([] ++ Payment.mk "A" (some ⟨2026, 6, 1⟩) 100 :: []) =
      total_remaining 400000 "A" ([] ++ Payment.mk "A" (some ⟨2025, 6, 1⟩) 100 :: [])) :=
  ⟨rfl, rfl, rfl,
    C8_move_payment "A" [] [] (Payment.mk "A" (some ⟨2025, 6, 1⟩) 100)
      (Payment.mk "A" (some ⟨2026, 6, 1⟩) 100) 2025 2026 2027 400000
      rfl rfl rfl (by decide) (by decide) (by decide)⟩

theorem decodeRow_encodeRow (r : SummaryRow) : decodeRow (encodeRow r) = some r := by
  cases r with
  | mk l req pd rem st => cases st <;> rfl

theorem decodeRows_encodeRows (rows : List SummaryRow) :
    decodeRows (encodeRows rows) = some rows := by
  induction rows with
  | nil => rfl
  | cons r rs ih =>
    show decodeRows (encodeRow r :: encodeRows rs) = some (r :: rs)
    unfold decodeRows
    rw [decodeRow_encodeRow, ih]

/-- C9: the schedule computation is a function of its explicit inputs
alone; recomputing gives an identical result, serializing and decoding
the schedule returns it unchanged, the incurred-penalty list is the
filter of the schedule on applied status, the summary uses the
hard-coded contract start 2025 with the registry lookup, and the
schedule always has its four rows. -/
theorem C9_pure_roundtrip (s : Int) (td : ℚ) (n : String) (ps : List Payment)
    (t : CalDate) (ca : List (String × ℚ)) :
    compute_schedule s td n ps t = compute_schedule s td n ps t ∧
    decodeRows (encodeRows (compute_schedule s td n ps t)) =
      some (compute_schedule s td n ps t) ∧
    penalties_incurred (compute_schedule s td n ps t) =
      (compute_schedule s td n ps t).filter isApplied ∧
    display_customer_summary n ca ps t = compute_schedule 2025 (amount_of ca n) n ps t ∧
    (compute_schedule s td n ps t).length = 4 :=
  ⟨rfl, decodeRows_encodeRows (compute_schedule s td n ps t), rfl, rfl,
    compute_schedule_length s td n ps t⟩

end DebtManager
